import Mathlib

/-!
Verification of the SystemAudio matrix-mixing engine
(`Sources/SystemAudio/SystemAudioMixer.cpp`, `SystemAudioMixer.hpp`,
`SystemAudioUtilities.hpp`).

The engine drives an external matrix-mixer capability (the platform's
AudioUnit machinery).  All calls into that capability are modelled by an
oracle `AudioEnv` that assigns a status to every request, and every engine
operation additionally returns the list of capability calls it issued, so
that interaction-order properties ("no further configuration steps were
attempted", "the request was stamped with the entry clock") become
statements about that call trace.

Modelling conventions:
* `OSStatus` is `Int`; `noErr = 0`, `kAudio_ParamError = -50`,
  `kAudioUnitErr_ExtensionNotFound = -66744` as in the SDK headers.
* Buffer data pointers (`AudioBuffer.mData`) are opaque identifiers
  (`Nat`); aliasing is identity of those identifiers.
* The sample clock `sampleTime_` is a `Float64` in the source used as an
  exact frame counter (initialised to 0, incremented by a `UInt32` frame
  count); it is modelled as `Nat`, exact per the spec's
  "wide enough to avoid practical overflow".
* Gain values (`AudioUnitParameterValue`) are modelled as `Rat`; the code
  only ever passes literal `1.0` and a caller-supplied volume through.
* The `int` arithmetic `(inputChannelIndex << 16) | outputChannelIndex`
  in `setCrossoverVolume` is modelled on 32-bit two's-complement bit
  patterns: `toUInt32bits` maps a C `int` value to its pattern and the
  element identifier is computed with `Nat` shift/or modulo `2 ^ 32`.
-/

abbrev OSStatus := Int

def noErr : OSStatus := 0

def kAudio_ParamError : OSStatus := -50

def kAudioUnitErr_ExtensionNotFound : OSStatus := -66744

def kAudioTimeStampSampleTimeValid : Nat := 1

/-- One `AudioBuffer`: channel count, byte size and the (opaque) data
pointer `mData`. -/
structure AudioBuffer where
  mNumberChannels : Nat
  mDataByteSize : Nat
  mData : Nat
deriving DecidableEq

/-- An `AudioBufferList` is its sequence of buffers. -/
abbrev AudioBufferList := List AudioBuffer

/-- The slice of `AudioTimeStamp` the engine writes: sample time and
flags. -/
structure AudioTimeStamp where
  mSampleTime : Nat
  mFlags : Nat
deriving DecidableEq

/-- The slice of `AudioStreamBasicDescription` relevant to the engine:
it reads only `mChannelsPerFrame` and passes the rest through opaquely. -/
structure AudioStreamBasicDescription where
  mSampleRate : Rat
  mFormatID : Nat
  mChannelsPerFrame : Nat
  mBitsPerChannel : Nat
deriving DecidableEq

inductive AudioUnitScope where
  | global
  | input
  | output
deriving DecidableEq

/-- The property identifiers the engine sets on the capability. -/
inductive AudioUnitPropertyID where
  | busCount
  | streamFormat
  | shouldAllocateBuffer
  | setRenderCallback
deriving DecidableEq

/-- One observable request issued by the engine to the external
capability. -/
inductive AudioCall where
  | findNext
  | instanceNew
  | setProperty (prop : AudioUnitPropertyID) (scope : AudioUnitScope) (element : Nat)
  | audioUnitInit
  | setParameter (scope : AudioUnitScope) (element : Nat) (value : Rat)
  | audioUnitUninit
  | dispose
  | render (ts : AudioTimeStamp) (frames : Nat) (input : AudioBufferList)
      (output : AudioBufferList)
deriving DecidableEq

/-- Oracle for the external capability: the status (and, for render, the
produced output list) it answers to each request. -/
structure AudioEnv where
  componentFound : Bool
  instanceNewStatus : OSStatus
  setPropertyStatus : AudioUnitPropertyID → AudioUnitScope → Nat → OSStatus
  audioUnitInitializeStatus : OSStatus
  setParameterStatus : AudioUnitScope → Nat → OSStatus
  renderResult : AudioTimeStamp → Nat → AudioBufferList → AudioBufferList →
    OSStatus × AudioBufferList
  audioUnitUninitializeStatus : OSStatus
  disposeStatus : OSStatus

/-- The status the oracle assigns to a given call. -/
def callStatus (env : AudioEnv) : AudioCall → OSStatus
  | .findNext => if env.componentFound then noErr else kAudioUnitErr_ExtensionNotFound
  | .instanceNew => env.instanceNewStatus
  | .setProperty p s e => env.setPropertyStatus p s e
  | .audioUnitInit => env.audioUnitInitializeStatus
  | .setParameter s e _ => env.setParameterStatus s e
  | .audioUnitUninit => env.audioUnitUninitializeStatus
  | .dispose => env.disposeStatus
  | .render ts n i o => (env.renderResult ts n i o).1

/-- Mutable state of `SystemAudioMixer`.  The C++ constructor initialises
only `sampleTime_`; the remaining fields are given arbitrary defaults
(they are written before being read on every path the claims concern). -/
structure SystemAudioMixer where
  mixerInputChannels : Nat
  mixerOutputChannels : Nat
  sampleTime : Nat
  renderCallbackInputABL : AudioBufferList
deriving DecidableEq

/-- `SystemAudioMixer::SystemAudioMixer() : sampleTime_(0)`. -/
def mkSystemAudioMixer : SystemAudioMixer :=
  { mixerInputChannels := 0
    mixerOutputChannels := 0
    sampleTime := 0
    renderCallbackInputABL := [] }

/-- The per-buffer validation performed by `renderCallback`: equal
channel count and equal byte size. -/
def bufMatch (a b : AudioBuffer) : Prop :=
  a.mNumberChannels = b.mNumberChannels ∧ a.mDataByteSize = b.mDataByteSize

instance (a b : AudioBuffer) : Decidable (bufMatch a b) :=
  inferInstanceAs (Decidable (_ ∧ _))

/-- The `for` loop of `SystemAudioMixer::renderCallback`: walk the two
buffer lists in step; on the first pair disagreeing in channel count or
byte size return `kAudio_ParamError` leaving the remaining output buffers
untouched; otherwise alias each output buffer's `mData` to the input
buffer's `mData` and return `noErr`. -/
def renderCallbackLoop : AudioBufferList → AudioBufferList → OSStatus × AudioBufferList
  | inBuf :: ins, outBuf :: outs =>
    if inBuf.mNumberChannels = outBuf.mNumberChannels ∧
        inBuf.mDataByteSize = outBuf.mDataByteSize then
      let r := renderCallbackLoop ins outs
      (r.1, { outBuf with mData := inBuf.mData } :: r.2)
    else
      (kAudio_ParamError, outBuf :: outs)
  | _, outs => (noErr, outs)

/-- `SystemAudioMixer::renderCallback` on the input list held in
`renderCallbackInputABL_` and the unit-supplied `ioData`: reject a buffer
count mismatch with `kAudio_ParamError`, else run the aliasing loop. -/
def renderCallback (inABL ioData : AudioBufferList) : OSStatus × AudioBufferList :=
  if inABL.length ≠ ioData.length then (kAudio_ParamError, ioData)
  else renderCallbackLoop inABL ioData

/-- `AutoCFType<T>` from `SystemAudioUtilities.hpp`: holds at most one
reference-counted handle (`none` models `nullptr`). -/
structure AutoCFType where
  type_ : Option Nat
deriving DecidableEq

/-- `release()`: returns the held handle and leaves the wrapper null. -/
def AutoCFType.release (w : AutoCFType) : Option Nat × AutoCFType :=
  (w.type_, { type_ := none })

/-- `get()`: returns the held handle; the wrapper is not modified. -/
def AutoCFType.get (w : AutoCFType) : Option Nat :=
  w.type_

/-- `reset(t)`: `CFRelease` the held handle if non-null (first component
lists the handles released), then hold `t`. -/
def AutoCFType.reset (w : AutoCFType) (t : Option Nat) : List Nat × AutoCFType :=
  (w.type_.toList, { type_ := t })

/-- `~AutoCFType()`: the handles the destructor passes to `CFRelease`
(the held one if non-null, nothing otherwise). -/
def AutoCFType.destructorReleases (w : AutoCFType) : List Nat :=
  w.type_.toList

/-- `SystemAudioMixer::configureMixer()`: set the input-scope bus count,
then the output-scope bus count, aborting at the first failure. -/
def configureMixer (env : AudioEnv) : OSStatus × List AudioCall :=
  let c1 := AudioCall.setProperty .busCount .input 0
  let s1 := env.setPropertyStatus .busCount .input 0
  if s1 ≠ noErr then (s1, [c1])
  else
    let c2 := AudioCall.setProperty .busCount .output 0
    let s2 := env.setPropertyStatus .busCount .output 0
    if s2 ≠ noErr then (s2, [c1, c2])
    else (noErr, [c1, c2])

/-- `SystemAudioMixer::configureStreamFormats(inputASBD, outputASBD)`:
apply the input format (recording `mixerInputChannels_` on success), then
the output format (recording `mixerOutputChannels_`), aborting at the
first failure. -/
def configureStreamFormats (env : AudioEnv) (m : SystemAudioMixer)
    (inputASBD outputASBD : AudioStreamBasicDescription) :
    OSStatus × SystemAudioMixer × List AudioCall :=
  let c1 := AudioCall.setProperty .streamFormat .input 0
  let s1 := env.setPropertyStatus .streamFormat .input 0
  if s1 ≠ noErr then (s1, m, [c1])
  else
    let m1 := { m with mixerInputChannels := inputASBD.mChannelsPerFrame }
    let c2 := AudioCall.setProperty .streamFormat .output 0
    let s2 := env.setPropertyStatus .streamFormat .output 0
    if s2 ≠ noErr then (s2, m1, [c1, c2])
    else (noErr, { m1 with mixerOutputChannels := outputASBD.mChannelsPerFrame }, [c1, c2])

/-- One of the two volume loops at the end of `initialize`: set the
volume parameter to `1.0` for elements `i, i+1, ..., i+n-1` of the given
scope, aborting at the first failure. -/
def setVolumeLoop (env : AudioEnv) (scope : AudioUnitScope) : Nat → Nat → OSStatus × List AudioCall
  | _, 0 => (noErr, [])
  | i, n + 1 =>
    let c := AudioCall.setParameter scope i 1
    let s := env.setParameterStatus scope i
    if s ≠ noErr then (s, [c])
    else
      let r := setVolumeLoop env scope (i + 1) n
      (r.1, c :: r.2)

structure InitResult where
  status : OSStatus
  mixer : SystemAudioMixer
  calls : List AudioCall
deriving DecidableEq

/-- `SystemAudioMixer::initialize(inputASBD, outputASBD)`: discover the
matrix-mixer component (failing with `kAudioUnitErr_ExtensionNotFound` if
absent), create an instance, configure bus counts, stream formats,
disable input-scope buffer allocation, install the render callback,
activate the unit, set the global volume to `1.0` at element
`0xFFFFFFFF`, then set every per-channel input and output volume to
`1.0`, aborting at the first failing step with its status. -/
def initializeMixer (env : AudioEnv) (m : SystemAudioMixer)
    (inputASBD outputASBD : AudioStreamBasicDescription) : InitResult :=
  if ¬ env.componentFound then
    { status := kAudioUnitErr_ExtensionNotFound, mixer := m, calls := [AudioCall.findNext] }
  else
    let t0 := [AudioCall.findNext, AudioCall.instanceNew]
    if env.instanceNewStatus ≠ noErr then
      { status := env.instanceNewStatus, mixer := m, calls := t0 }
    else
      let r1 := configureMixer env
      if r1.1 ≠ noErr then { status := r1.1, mixer := m, calls := t0 ++ r1.2 }
      else
        let r2 := configureStreamFormats env m inputASBD outputASBD
        let m2 := r2.2.1
        let t2 := t0 ++ r1.2 ++ r2.2.2
        if r2.1 ≠ noErr then { status := r2.1, mixer := m2, calls := t2 }
        else
          let c5 := AudioCall.setProperty .shouldAllocateBuffer .input 0
          let s5 := env.setPropertyStatus .shouldAllocateBuffer .input 0
          if s5 ≠ noErr then { status := s5, mixer := m2, calls := t2 ++ [c5] }
          else
            let c6 := AudioCall.setProperty .setRenderCallback .global 0
            let s6 := env.setPropertyStatus .setRenderCallback .global 0
            if s6 ≠ noErr then { status := s6, mixer := m2, calls := t2 ++ [c5, c6] }
            else
              if env.audioUnitInitializeStatus ≠ noErr then
                { status := env.audioUnitInitializeStatus, mixer := m2,
                  calls := t2 ++ [c5, c6, AudioCall.audioUnitInit] }
              else
                let c8 := AudioCall.setParameter .global 0xFFFFFFFF 1
                let s8 := env.setParameterStatus .global 0xFFFFFFFF
                let t8 := t2 ++ [c5, c6, AudioCall.audioUnitInit, c8]
                if s8 ≠ noErr then { status := s8, mixer := m2, calls := t8 }
                else
                  let r9 := setVolumeLoop env .input 0 m2.mixerInputChannels
                  if r9.1 ≠ noErr then { status := r9.1, mixer := m2, calls := t8 ++ r9.2 }
                  else
                    let r10 := setVolumeLoop env .output 0 m2.mixerOutputChannels
                    { status := r10.1, mixer := m2, calls := t8 ++ r9.2 ++ r10.2 }

/-- `SystemAudioMixer::uninitialize()`: `AudioUnitUninitialize`, then, if
that succeeded, `AudioComponentInstanceDispose`; the first failure's
status is returned. -/
def uninitializeMixer (env : AudioEnv) (m : SystemAudioMixer) :
    OSStatus × SystemAudioMixer × List AudioCall :=
  let s1 := env.audioUnitUninitializeStatus
  if s1 ≠ noErr then (s1, m, [AudioCall.audioUnitUninit])
  else
    let s2 := env.disposeStatus
    (s2, m, [AudioCall.audioUnitUninit, AudioCall.dispose])

/-- The two's-complement 32-bit pattern of a C `int` value. -/
def toUInt32bits (x : Int) : Nat := (x % (2 ^ 32 : Int)).toNat

/-- The `AudioUnitElement` passed by `setCrossoverVolume`:
`(inputChannelIndex << 16) | outputChannelIndex` computed on 32-bit
two's-complement patterns. -/
def crossoverElement (inputChannelIndex outputChannelIndex : Int) : Nat :=
  (toUInt32bits inputChannelIndex * 2 ^ 16) % 2 ^ 32 ||| toUInt32bits outputChannelIndex

/-- `SystemAudioMixer::setCrossoverVolume(i, j, volume)`: one global-scope
volume parameter set at element `crossoverElement i j`; the capability's
status is returned. -/
def setCrossoverVolume (env : AudioEnv) (m : SystemAudioMixer)
    (inputChannelIndex outputChannelIndex : Int) (volume : Rat) :
    OSStatus × SystemAudioMixer × List AudioCall :=
  let e := crossoverElement inputChannelIndex outputChannelIndex
  let s := env.setParameterStatus .global e
  (s, m, [AudioCall.setParameter .global e volume])

structure MixResult where
  status : OSStatus
  mixer : SystemAudioMixer
  output : AudioBufferList
  calls : List AudioCall
deriving DecidableEq

/-- `SystemAudioMixer::mix(inNumberFrames, inputABL, outputABL)`: stamp a
timestamp with the current sample clock, store the non-owning input list
reference, call `AudioUnitRender`, and on success advance the sample
clock by `inNumberFrames`; the render status is returned either way. -/
def SystemAudioMixer.mix (env : AudioEnv) (m : SystemAudioMixer) (inNumberFrames : Nat)
    (inputABL outputABL : AudioBufferList) : MixResult :=
  let ts : AudioTimeStamp :=
    { mSampleTime := m.sampleTime, mFlags := kAudioTimeStampSampleTimeValid }
  let m1 : SystemAudioMixer := { m with renderCallbackInputABL := inputABL }
  let r := env.renderResult ts inNumberFrames m1.renderCallbackInputABL outputABL
  if r.1 = noErr then
    { status := r.1, mixer := { m1 with sampleTime := m1.sampleTime + inNumberFrames },
      output := r.2,
      calls := [AudioCall.render ts inNumberFrames m1.renderCallbackInputABL outputABL] }
  else
    { status := r.1, mixer := m1, output := r.2,
      calls := [AudioCall.render ts inNumberFrames m1.renderCallbackInputABL outputABL] }

/-- A sequence of `mix` calls: the final mixer state and the list of
statuses returned. -/
def mixRuns (env : AudioEnv) (m : SystemAudioMixer) :
    List (Nat × AudioBufferList × AudioBufferList) → SystemAudioMixer × List OSStatus
  | [] => (m, [])
  | (n, i, o) :: rest =>
    let r := SystemAudioMixer.mix env m n i o
    let rr := mixRuns env r.mixer rest
    (rr.1, r.status :: rr.2)

/-- An oracle on which every request succeeds and render produces the
supplied output list unchanged. -/
def testEnv : AudioEnv :=
  { componentFound := true
    instanceNewStatus := noErr
    setPropertyStatus := fun _ _ _ => noErr
    audioUnitInitializeStatus := noErr
    setParameterStatus := fun _ _ => noErr
    renderResult := fun _ _ _ o => (noErr, o)
    audioUnitUninitializeStatus := noErr
    disposeStatus := noErr }

/-- An oracle on which every request fails with `kAudio_ParamError` and
no component is found. -/
def errEnv : AudioEnv :=
  { componentFound := false
    instanceNewStatus := kAudio_ParamError
    setPropertyStatus := fun _ _ _ => kAudio_ParamError
    audioUnitInitializeStatus := kAudio_ParamError
    setParameterStatus := fun _ _ => kAudio_ParamError
    renderResult := fun _ _ _ o => (kAudio_ParamError, o)
    audioUnitUninitializeStatus := kAudio_ParamError
    disposeStatus := kAudio_ParamError }

/-- The full call sequence of a completely successful `initialize` for
the two given stream formats: the per-channel volume calls of the two
loops, parameterised by scope, first element and count. -/
def plannedVolumeCalls (scope : AudioUnitScope) (start n : Nat) : List AudioCall :=
  (List.range' start n).map (fun j => AudioCall.setParameter scope j 1)

/-- The full call sequence of a completely successful `initialize` for
the two given stream formats. -/
def plannedInitCalls (inputASBD outputASBD : AudioStreamBasicDescription) : List AudioCall :=
  [AudioCall.findNext, AudioCall.instanceNew,
    AudioCall.setProperty .busCount .input 0,
    AudioCall.setProperty .busCount .output 0,
    AudioCall.setProperty .streamFormat .input 0,
    AudioCall.setProperty .streamFormat .output 0,
    AudioCall.setProperty .shouldAllocateBuffer .input 0,
    AudioCall.setProperty .setRenderCallback .global 0,
    AudioCall.audioUnitInit,
    AudioCall.setParameter .global 0xFFFFFFFF 1]
  ++ plannedVolumeCalls .input 0 inputASBD.mChannelsPerFrame
  ++ plannedVolumeCalls .output 0 outputASBD.mChannelsPerFrame

/-- An early-abort computation shape: the trace is what the planned
sequence reaches, a success means the whole plan ran with every call
succeeding, and a failure means the last performed call produced the
returned status while every earlier call succeeded. -/
def AbortsCleanly (env : AudioEnv) (planned : List AudioCall)
    (r : OSStatus × List AudioCall) : Prop :=
  r.2 = planned.take r.2.length ∧
  (r.1 = noErr → r.2 = planned ∧ ∀ c ∈ r.2, callStatus env c = noErr) ∧
  (r.1 ≠ noErr → ∃ c, r.2.getLast? = some c ∧ callStatus env c = r.1 ∧
    ∀ c2 ∈ r.2.dropLast, callStatus env c2 = noErr)

/-! ## Render-callback lemmas -/

lemma renderCallbackLoop_forall₂ {ins outs : AudioBufferList}
    (h : List.Forall₂ bufMatch ins outs) :
    renderCallbackLoop ins outs =
      (noErr, List.zipWith (fun a b => { b with mData := a.mData }) ins outs) := by
  induction h with
  | nil => rfl
  | cons hab htl ih =>
    obtain ⟨hch, hsz⟩ := hab
    simp [renderCallbackLoop, hch, hsz, ih]

lemma renderCallbackLoop_mismatch {ins outs : AudioBufferList} {i : Nat}
    (h1 : i < ins.length) (h2 : i < outs.length)
    (hpre : List.Forall₂ bufMatch (ins.take i) (outs.take i))
    (hmis : ¬ bufMatch (ins.get ⟨i, h1⟩) (outs.get ⟨i, h2⟩)) :
    renderCallbackLoop ins outs =
      (kAudio_ParamError,
        List.zipWith (fun a b => { b with mData := a.mData }) (ins.take i) (outs.take i)
          ++ outs.drop i) := by
  induction i generalizing ins outs with
  | zero =>
    cases ins with
    | nil => simp at h1
    | cons a ins =>
      cases outs with
      | nil => simp at h2
      | cons b outs =>
        have hmis2 : ¬ (a.mNumberChannels = b.mNumberChannels ∧
            a.mDataByteSize = b.mDataByteSize) := hmis
        simp only [List.take_zero, List.zipWith_nil_right, List.drop_zero,
          List.nil_append, renderCallbackLoop]
        rw [if_neg hmis2]
  | succ i ih =>
    cases ins with
    | nil => simp at h1
    | cons a ins =>
      cases outs with
      | nil => simp at h2
      | cons b outs =>
        rw [List.take_succ_cons, List.take_succ_cons] at hpre
        cases hpre with
        | cons hab htl =>
          have h1b : i < ins.length := by simpa using h1
          have h2b : i < outs.length := by simpa using h2
          have hmis2 : ¬ bufMatch (ins.get ⟨i, h1b⟩) (outs.get ⟨i, h2b⟩) := hmis
          have hab2 : a.mNumberChannels = b.mNumberChannels ∧
              a.mDataByteSize = b.mDataByteSize := hab
          simp only [renderCallbackLoop]
          rw [if_pos hab2]
          simp [ih h1b h2b htl hmis2, List.take_succ_cons, List.drop_succ_cons]

/-! ## Claim theorems: render callback and ownership wrapper -/

/-- Claim C1: when the input and output buffer lists have the same buffer
count and every corresponding pair agrees in channel count and byte size,
the zero-copy supply routine returns `noErr` and each output buffer is
exactly the old output buffer with its data pointer replaced by the
corresponding input buffer's data pointer (pointer identity, no byte
copy). -/
theorem renderCallback_match_aliases_pointers {inABL ioData : AudioBufferList}
    (h : List.Forall₂ bufMatch inABL ioData) :
    renderCallback inABL ioData =
      (noErr, List.zipWith (fun a b => { b with mData := a.mData }) inABL ioData) := by
  have hlen := h.length_eq
  rw [renderCallback, if_neg (fun hne => hne hlen)]
  exact renderCallbackLoop_forall₂ h

/-- Witness for C1 at a concrete pair of matching two-buffer lists with
distinct data pointers. -/
theorem renderCallback_match_aliases_pointers_witness :
    List.Forall₂ bufMatch [⟨2, 8, 100⟩, ⟨1, 4, 200⟩] [⟨2, 8, 0⟩, ⟨1, 4, 7⟩] ∧
    renderCallback [⟨2, 8, 100⟩, ⟨1, 4, 200⟩] [⟨2, 8, 0⟩, ⟨1, 4, 7⟩] =
      (noErr, [⟨2, 8, 100⟩, ⟨1, 4, 200⟩]) := by
  have hm : List.Forall₂ bufMatch [⟨2, 8, 100⟩, ⟨1, 4, 200⟩] [⟨2, 8, 0⟩, ⟨1, 4, 7⟩] :=
    .cons ⟨rfl, rfl⟩ (.cons ⟨rfl, rfl⟩ .nil)
  exact ⟨hm, (renderCallback_match_aliases_pointers hm).trans rfl⟩

/-- Claim C4: the supply routine returns `kAudio_ParamError` immediately
on a buffer-count mismatch, modifying no output buffer; and with equal
counts, when the first mismatching pair (channel count or byte size) is
at index `i`, it returns `kAudio_ParamError` with the output buffers
before `i` aliased to their input counterparts and the buffers from `i`
on unchanged. -/
theorem renderCallback_mismatch_param_error (inABL ioData : AudioBufferList) :
    (inABL.length ≠ ioData.length →
      renderCallback inABL ioData = (kAudio_ParamError, ioData)) ∧
    (∀ (i : Nat) (h1 : i < inABL.length) (h2 : i < ioData.length),
      inABL.length = ioData.length →
      List.Forall₂ bufMatch (inABL.take i) (ioData.take i) →
      ¬ bufMatch (inABL.get ⟨i, h1⟩) (ioData.get ⟨i, h2⟩) →
      renderCallback inABL ioData =
        (kAudio_ParamError,
          List.zipWith (fun a b => { b with mData := a.mData }) (inABL.take i)
            (ioData.take i) ++ ioData.drop i)) := by
  constructor
  · intro hne
    rw [renderCallback, if_pos hne]
  · intro i h1 h2 hlen hpre hmis
    rw [renderCallback, if_neg (fun hne => hne hlen)]
    exact renderCallbackLoop_mismatch h1 h2 hpre hmis

/-- Witness for C4: a count mismatch, and a first pair mismatch at index
1 with the index-0 buffer already aliased and the index-1 buffer left
unchanged. -/
theorem renderCallback_mismatch_param_error_witness :
    renderCallback [⟨1, 4, 9⟩] [] = (kAudio_ParamError, []) ∧
    renderCallback [⟨2, 8, 100⟩, ⟨1, 4, 200⟩] [⟨2, 8, 0⟩, ⟨2, 4, 7⟩] =
      (kAudio_ParamError, [⟨2, 8, 100⟩, ⟨2, 4, 7⟩]) := by
  constructor
  · exact (renderCallback_mismatch_param_error [⟨1, 4, 9⟩] []).1 (by decide)
  · have h := (renderCallback_mismatch_param_error [⟨2, 8, 100⟩, ⟨1, 4, 200⟩]
      [⟨2, 8, 0⟩, ⟨2, 4, 7⟩]).2 1 (by decide) (by decide) rfl
      (.cons ⟨rfl, rfl⟩ .nil) (by decide)
    exact h.trans rfl

/-- Claim C10: for a wrapper holding handle `h`, `release()` returns `h`
and leaves the wrapper null, so the destructor releases nothing and a
later `reset` releases nothing of `h`; `get()` returns the held handle
and by its type takes no ownership and changes no state. -/
theorem autoCFType_release_transfers_ownership (h : Nat) (t : Option Nat) :
    (AutoCFType.release { type_ := some h }).1 = some h ∧
    (AutoCFType.release { type_ := some h }).2.type_ = none ∧
    AutoCFType.destructorReleases (AutoCFType.release { type_ := some h }).2 = [] ∧
    (AutoCFType.reset (AutoCFType.release { type_ := some h }).2 t).1 = [] ∧
    AutoCFType.get { type_ := some h } = some h :=
  ⟨rfl, rfl, rfl, rfl, rfl⟩

/-! ## Mix lemmas -/

lemma mix_calls (env : AudioEnv) (m : SystemAudioMixer) (n : Nat)
    (i o : AudioBufferList) :
    (SystemAudioMixer.mix env m n i o).calls =
      [AudioCall.render { mSampleTime := m.sampleTime, mFlags := kAudioTimeStampSampleTimeValid }
        n i o] := by
  simp only [SystemAudioMixer.mix]
  split <;> rfl

lemma mix_status (env : AudioEnv) (m : SystemAudioMixer) (n : Nat)
    (i o : AudioBufferList) :
    (SystemAudioMixer.mix env m n i o).status =
      (env.renderResult { mSampleTime := m.sampleTime, mFlags := kAudioTimeStampSampleTimeValid }
        n i o).1 := by
  simp only [SystemAudioMixer.mix]
  split <;> rfl

lemma mix_output (env : AudioEnv) (m : SystemAudioMixer) (n : Nat)
    (i o : AudioBufferList) :
    (SystemAudioMixer.mix env m n i o).output =
      (env.renderResult { mSampleTime := m.sampleTime, mFlags := kAudioTimeStampSampleTimeValid }
        n i o).2 := by
  simp only [SystemAudioMixer.mix]
  split <;> rfl

lemma mix_mixer_success (env : AudioEnv) (m : SystemAudioMixer) (n : Nat)
    (i o : AudioBufferList)
    (h : (env.renderResult { mSampleTime := m.sampleTime, mFlags := kAudioTimeStampSampleTimeValid }
      n i o).1 = noErr) :
    (SystemAudioMixer.mix env m n i o).mixer =
      { m with renderCallbackInputABL := i, sampleTime := m.sampleTime + n } := by
  simp only [SystemAudioMixer.mix]
  rw [if_pos h]

lemma mix_mixer_failure (env : AudioEnv) (m : SystemAudioMixer) (n : Nat)
    (i o : AudioBufferList)
    (h : (env.renderResult { mSampleTime := m.sampleTime, mFlags := kAudioTimeStampSampleTimeValid }
      n i o).1 ≠ noErr) :
    (SystemAudioMixer.mix env m n i o).mixer = { m with renderCallbackInputABL := i } := by
  simp only [SystemAudioMixer.mix]
  rw [if_neg h]

/-- Claim C2: in the Ready state, `mix` issues exactly one render request,
stamped with a timestamp equal to the sample clock's value at call entry,
and when the underlying render returns success, `mix` returns success and
the sample clock afterwards equals its pre-call value plus the frame
count. -/
theorem mix_stamps_entry_clock_and_advances (env : AudioEnv) (m : SystemAudioMixer)
    (inNumberFrames : Nat) (inputABL outputABL : AudioBufferList) :
    (SystemAudioMixer.mix env m inNumberFrames inputABL outputABL).calls =
      [AudioCall.render
        { mSampleTime := m.sampleTime, mFlags := kAudioTimeStampSampleTimeValid }
        inNumberFrames inputABL outputABL] ∧
    ((env.renderResult
        { mSampleTime := m.sampleTime, mFlags := kAudioTimeStampSampleTimeValid }
        inNumberFrames inputABL outputABL).1 = noErr →
      (SystemAudioMixer.mix env m inNumberFrames inputABL outputABL).status = noErr ∧
      (SystemAudioMixer.mix env m inNumberFrames inputABL outputABL).mixer.sampleTime =
        m.sampleTime + inNumberFrames) := by
  refine ⟨mix_calls env m inNumberFrames inputABL outputABL, fun h => ?_⟩
  refine ⟨(mix_status env m inNumberFrames inputABL outputABL).trans h, ?_⟩
  rw [mix_mixer_success env m inNumberFrames inputABL outputABL h]

/-- Witness for C2 on the all-success oracle: 512 frames from clock 0. -/
theorem mix_stamps_entry_clock_and_advances_witness :
    (testEnv.renderResult
      { mSampleTime := 0, mFlags := kAudioTimeStampSampleTimeValid } 512 [] []).1 = noErr ∧
    (SystemAudioMixer.mix testEnv mkSystemAudioMixer 512 [] []).status = noErr ∧
    (SystemAudioMixer.mix testEnv mkSystemAudioMixer 512 [] []).mixer.sampleTime = 512 := by
  have h := (mix_stamps_entry_clock_and_advances testEnv mkSystemAudioMixer 512 [] []).2 rfl
  exact ⟨rfl, h.1, h.2.trans (by decide)⟩

/-- Claim C3: when the underlying render step fails, `mix` returns exactly
that status and the sample clock is unchanged. -/
theorem mix_failure_propagates_status (env : AudioEnv) (m : SystemAudioMixer)
    (inNumberFrames : Nat) (inputABL outputABL : AudioBufferList)
    (h : (env.renderResult
      { mSampleTime := m.sampleTime, mFlags := kAudioTimeStampSampleTimeValid }
      inNumberFrames inputABL outputABL).1 ≠ noErr) :
    (SystemAudioMixer.mix env m inNumberFrames inputABL outputABL).status =
      (env.renderResult
        { mSampleTime := m.sampleTime, mFlags := kAudioTimeStampSampleTimeValid }
        inNumberFrames inputABL outputABL).1 ∧
    (SystemAudioMixer.mix env m inNumberFrames inputABL outputABL).mixer.sampleTime =
      m.sampleTime := by
  refine ⟨mix_status env m inNumberFrames inputABL outputABL, ?_⟩
  rw [mix_mixer_failure env m inNumberFrames inputABL outputABL h]

/-- Witness for C3 on the all-failure oracle: the `kAudio_ParamError`
render status comes back verbatim and the clock stays 0. -/
theorem mix_failure_propagates_status_witness :
    (errEnv.renderResult
      { mSampleTime := 0, mFlags := kAudioTimeStampSampleTimeValid } 512 [] []).1 ≠ noErr ∧
    (SystemAudioMixer.mix errEnv mkSystemAudioMixer 512 [] []).status = kAudio_ParamError ∧
    (SystemAudioMixer.mix errEnv mkSystemAudioMixer 512 [] []).mixer.sampleTime = 0 := by
  have h := mix_failure_propagates_status errEnv mkSystemAudioMixer 512 [] [] (by decide)
  exact ⟨by decide, h.1.trans (by decide), h.2.trans (by decide)⟩

/-! ## Sample-clock lemmas -/

lemma configureStreamFormats_sampleTime (env : AudioEnv) (m : SystemAudioMixer)
    (a b : AudioStreamBasicDescription) :
    (configureStreamFormats env m a b).2.1.sampleTime = m.sampleTime := by
  simp only [configureStreamFormats]
  split
  · rfl
  · split <;> rfl

lemma initializeMixer_sampleTime (env : AudioEnv) (m : SystemAudioMixer)
    (a b : AudioStreamBasicDescription) :
    (initializeMixer env m a b).mixer.sampleTime = m.sampleTime := by
  simp only [initializeMixer]
  repeat
    first
    | exact configureStreamFormats_sampleTime env m a b
    | rfl
    | split

lemma mixRuns_success_sum (env : AudioEnv) (m : SystemAudioMixer)
    (runs : List (Nat × AudioBufferList × AudioBufferList))
    (h : ∀ s ∈ (mixRuns env m runs).2, s = noErr) :
    (mixRuns env m runs).1.sampleTime = m.sampleTime + (runs.map Prod.fst).sum := by
  induction runs generalizing m with
  | nil => simp [mixRuns]
  | cons p rest ih =>
    obtain ⟨n, i, o⟩ := p
    have hhead : (SystemAudioMixer.mix env m n i o).status = noErr := by
      apply h
      simp [mixRuns]
    have htail :
        ∀ s ∈ (mixRuns env (SystemAudioMixer.mix env m n i o).mixer rest).2, s = noErr := by
      intro s hs
      apply h
      simp only [mixRuns, List.mem_cons]
      exact Or.inr hs
    have hclock : (SystemAudioMixer.mix env m n i o).mixer.sampleTime = m.sampleTime + n := by
      rw [mix_mixer_success env m n i o ((mix_status env m n i o).symm.trans hhead)]
    simp only [mixRuns, List.map_cons, List.sum_cons]
    rw [ih _ htail, hclock]
    omega

/-- Claim C5: the sample clock starts at zero on construction; after any
sequence of successful `mix` calls it equals the sum of their frame
counts; a `mix` call never decreases it; and `initialize`,
`uninitialize` and `setCrossoverVolume` leave it untouched. -/
theorem sampleClock_zero_monotone_additive :
    mkSystemAudioMixer.sampleTime = 0 ∧
    (∀ (env : AudioEnv) (m : SystemAudioMixer)
        (runs : List (Nat × AudioBufferList × AudioBufferList)),
      (∀ s ∈ (mixRuns env m runs).2, s = noErr) →
      (mixRuns env m runs).1.sampleTime = m.sampleTime + (runs.map Prod.fst).sum) ∧
    (∀ (env : AudioEnv) (m : SystemAudioMixer) (n : Nat) (i o : AudioBufferList),
      m.sampleTime ≤ (SystemAudioMixer.mix env m n i o).mixer.sampleTime) ∧
    (∀ (env : AudioEnv) (m : SystemAudioMixer) (a b : AudioStreamBasicDescription),
      (initializeMixer env m a b).mixer.sampleTime = m.sampleTime) ∧
    (∀ (env : AudioEnv) (m : SystemAudioMixer),
      (uninitializeMixer env m).2.1.sampleTime = m.sampleTime) ∧
    (∀ (env : AudioEnv) (m : SystemAudioMixer) (i j : Int) (g : Rat),
      (setCrossoverVolume env m i j g).2.1.sampleTime = m.sampleTime) := by
  refine ⟨rfl, mixRuns_success_sum, ?_, initializeMixer_sampleTime, ?_, fun _ _ _ _ _ => rfl⟩
  · intro env m n i o
    by_cases hr : (env.renderResult
        { mSampleTime := m.sampleTime, mFlags := kAudioTimeStampSampleTimeValid } n i o).1 = noErr
    · rw [mix_mixer_success env m n i o hr]
      exact Nat.le_add_right _ _
    · rw [mix_mixer_failure env m n i o hr]
  · intro env m
    simp only [uninitializeMixer]
    split <;> rfl

/-- Witness for C5: two successful `mix` calls of 2 then 3 frames from a
fresh mixer leave the clock at 5. -/
theorem sampleClock_zero_monotone_additive_witness :
    (∀ s ∈ (mixRuns testEnv mkSystemAudioMixer [(2, [], []), (3, [], [])]).2, s = noErr) ∧
    (mixRuns testEnv mkSystemAudioMixer [(2, [], []), (3, [], [])]).1.sampleTime = 5 := by
  refine ⟨by decide, ?_⟩
  have h := sampleClock_zero_monotone_additive.2.1 testEnv mkSystemAudioMixer
    [(2, [], []), (3, [], [])] (by decide)
  exact h.trans (by decide)

/-- Claim C8: `uninitialize` first deactivates the capability instance and
then disposes it; both succeeding yields success, a deactivation failure
is returned immediately with no dispose call made, and a dispose failure
after a successful deactivation is returned as is. -/
theorem uninitializeMixer_deactivate_then_dispose (env : AudioEnv) (m : SystemAudioMixer) :
    (env.audioUnitUninitializeStatus = noErr → env.disposeStatus = noErr →
      (uninitializeMixer env m).1 = noErr ∧
      (uninitializeMixer env m).2.2 = [AudioCall.audioUnitUninit, AudioCall.dispose]) ∧
    (env.audioUnitUninitializeStatus ≠ noErr →
      (uninitializeMixer env m).1 = env.audioUnitUninitializeStatus ∧
      (uninitializeMixer env m).2.2 = [AudioCall.audioUnitUninit]) ∧
    (env.audioUnitUninitializeStatus = noErr → env.disposeStatus ≠ noErr →
      (uninitializeMixer env m).1 = env.disposeStatus ∧
      (uninitializeMixer env m).2.2 = [AudioCall.audioUnitUninit, AudioCall.dispose]) := by
  refine ⟨fun h1 h2 => ?_, fun h1 => ?_, fun h1 _ => ?_⟩
  · simp only [uninitializeMixer]
    rw [if_neg (fun hc => hc h1)]
    exact ⟨h2, rfl⟩
  · simp only [uninitializeMixer]
    rw [if_pos h1]
    exact ⟨rfl, rfl⟩
  · simp only [uninitializeMixer]
    rw [if_neg (fun hc => hc h1)]
    exact ⟨rfl, rfl⟩

/-- Witness for C8: on the all-success oracle both steps run in order and
success is returned. -/
theorem uninitializeMixer_deactivate_then_dispose_witness :
    testEnv.audioUnitUninitializeStatus = noErr ∧ testEnv.disposeStatus = noErr ∧
    (uninitializeMixer testEnv mkSystemAudioMixer).1 = noErr ∧
    (uninitializeMixer testEnv mkSystemAudioMixer).2.2 =
      [AudioCall.audioUnitUninit, AudioCall.dispose] := by
  have h := (uninitializeMixer_deactivate_then_dispose testEnv mkSystemAudioMixer).1 rfl rfl
  exact ⟨rfl, rfl, h.1, h.2⟩

/-! ## Early-abort machinery -/

lemma abortsCleanly_single (env : AudioEnv) (c : AudioCall) :
    AbortsCleanly env [c] (callStatus env c, [c]) := by
  refine ⟨rfl, fun h => ⟨rfl, ?_⟩, fun _ => ⟨c, by simp, rfl, by simp⟩⟩
  intro c2 hc2
  rw [List.mem_singleton] at hc2
  subst hc2
  exact h

lemma abortsCleanly_all_ok (env : AudioEnv) {p : List AudioCall}
    (h : ∀ c ∈ p, callStatus env c = noErr) : AbortsCleanly env p (noErr, p) :=
  ⟨(List.take_length p).symm, fun _ => ⟨rfl, h⟩, fun hne => absurd rfl hne⟩

lemma abortsCleanly_seq (env : AudioEnv) {p1 p2 : List AudioCall}
    {r1 r2 : OSStatus × List AudioCall}
    (h1 : AbortsCleanly env p1 r1) (hok : r1.1 = noErr)
    (h2 : AbortsCleanly env p2 r2) :
    AbortsCleanly env (p1 ++ p2) (r2.1, r1.2 ++ r2.2) := by
  obtain ⟨t1, s1, f1⟩ := h1
  obtain ⟨t2, s2, f2⟩ := h2
  obtain ⟨e1, a1⟩ := s1 hok
  refine ⟨?_, fun h => ?_, fun h => ?_⟩
  · rw [e1, List.length_append, List.take_append]
    exact congrArg (fun l => p1 ++ l) t2
  · obtain ⟨e2, a2⟩ := s2 h
    refine ⟨by rw [e1, e2], ?_⟩
    intro c hc
    rcases List.mem_append.mp hc with hc1 | hc2
    · exact a1 c hc1
    · exact a2 c hc2
  · obtain ⟨c, hlast, hstat, hpre⟩ := f2 h
    have hne : r2.2 ≠ [] := by
      intro he
      rw [he] at hlast
      simp at hlast
    refine ⟨c, ?_, hstat, ?_⟩
    · rw [List.getLast?_append_of_ne_nil _ hne]
      exact hlast
    · rw [List.dropLast_append_of_ne_nil _ hne]
      intro c2 hc2
      rcases List.mem_append.mp hc2 with hc1 | hc3
      · exact a1 c2 hc1
      · exact hpre c2 hc3

lemma abortsCleanly_stop (env : AudioEnv) {p1 : List AudioCall} (p2 : List AudioCall)
    {r1 : OSStatus × List AudioCall}
    (h1 : AbortsCleanly env p1 r1) (hfail : r1.1 ≠ noErr) :
    AbortsCleanly env (p1 ++ p2) r1 := by
  obtain ⟨t1, s1, f1⟩ := h1
  have hlen : r1.2.length ≤ p1.length := by
    have hl := congrArg List.length t1
    simp only [List.length_take] at hl
    omega
  refine ⟨?_, fun h => absurd h hfail, f1⟩
  rw [List.take_append_of_le_length hlen]
  exact t1

lemma abortsCleanly_of_fail_last (env : AudioEnv) (pre : List AudioCall) (c : AudioCall)
    (p2 : List AudioCall) (s : OSStatus)
    (hs : callStatus env c = s) (hfail : s ≠ noErr)
    (hpre : ∀ c2 ∈ pre, callStatus env c2 = noErr) :
    AbortsCleanly env (pre ++ c :: p2) (s, pre ++ [c]) := by
  refine ⟨?_, fun h => absurd h hfail, fun _ => ⟨c, by simp, hs, ?_⟩⟩
  · rw [show pre ++ c :: p2 = (pre ++ [c]) ++ p2 by simp]
    exact (List.take_left _ _).symm
  · rw [List.dropLast_concat]
    exact hpre

lemma setVolumeLoop_abortsCleanly (env : AudioEnv) (scope : AudioUnitScope) (n : Nat) :
    ∀ i : Nat, AbortsCleanly env (plannedVolumeCalls scope i n) (setVolumeLoop env scope i n) := by
  induction n with
  | zero =>
    intro i
    exact ⟨rfl, fun _ => ⟨rfl, by simp [setVolumeLoop]⟩, fun h => absurd rfl h⟩
  | succ n ih =>
    intro i
    by_cases hs : env.setParameterStatus scope i = noErr
    · have hcomp := abortsCleanly_seq env
        (abortsCleanly_single env (AudioCall.setParameter scope i 1)) hs (ih (i + 1))
      have heq : setVolumeLoop env scope i (n + 1) =
          ((setVolumeLoop env scope (i + 1) n).1,
            AudioCall.setParameter scope i 1 :: (setVolumeLoop env scope (i + 1) n).2) := by
        simp only [setVolumeLoop]
        rw [if_neg (fun hc => hc hs)]
      rw [heq, plannedVolumeCalls, List.range'_succ, List.map_cons]
      exact hcomp
    · have heq : setVolumeLoop env scope i (n + 1) =
          (env.setParameterStatus scope i, [AudioCall.setParameter scope i 1]) := by
        simp only [setVolumeLoop]
        rw [if_pos hs]
      rw [heq, plannedVolumeCalls, List.range'_succ, List.map_cons]
      exact abortsCleanly_of_fail_last env [] (AudioCall.setParameter scope i 1) _ _ rfl hs
        (by simp)

lemma initializeMixer_characterized (env : AudioEnv) (m : SystemAudioMixer)
    (a b : AudioStreamBasicDescription) :
    AbortsCleanly env (plannedInitCalls a b)
      ((initializeMixer env m a b).status, (initializeMixer env m a b).calls) ∧
    ((initializeMixer env m a b).status = noErr →
      (initializeMixer env m a b).mixer =
        { m with mixerInputChannels := a.mChannelsPerFrame,
                 mixerOutputChannels := b.mChannelsPerFrame }) := by
  by_cases g0 : env.componentFound = true
  · by_cases g1 : env.instanceNewStatus = noErr
    · by_cases g2 : env.setPropertyStatus .busCount .input 0 = noErr
      · by_cases g3 : env.setPropertyStatus .busCount .output 0 = noErr
        · by_cases g4 : env.setPropertyStatus .streamFormat .input 0 = noErr
          · by_cases g5 : env.setPropertyStatus .streamFormat .output 0 = noErr
            · by_cases g6 : env.setPropertyStatus .shouldAllocateBuffer .input 0 = noErr
              · by_cases g7 : env.setPropertyStatus .setRenderCallback .global 0 = noErr
                · by_cases g8 : env.audioUnitInitializeStatus = noErr
                  · by_cases g9 : env.setParameterStatus .global 0xFFFFFFFF = noErr
                    · have hpre10 : ∀ c ∈ [AudioCall.findNext, AudioCall.instanceNew,
                          AudioCall.setProperty .busCount .input 0,
                          AudioCall.setProperty .busCount .output 0,
                          AudioCall.setProperty .streamFormat .input 0,
                          AudioCall.setProperty .streamFormat .output 0,
                          AudioCall.setProperty .shouldAllocateBuffer .input 0,
                          AudioCall.setProperty .setRenderCallback .global 0,
                          AudioCall.audioUnitInit,
                          AudioCall.setParameter .global 0xFFFFFFFF 1],
                          callStatus env c = noErr := by
                        simp [callStatus, g0, g1, g2, g3, g4, g5, g6, g7, g8, g9]
                      have hA := abortsCleanly_seq env (abortsCleanly_all_ok env hpre10) rfl
                        (setVolumeLoop_abortsCleanly env .input a.mChannelsPerFrame 0)
                      by_cases gL : (setVolumeLoop env .input 0 a.mChannelsPerFrame).1 = noErr
                      · have hC := abortsCleanly_seq env hA gL
                          (setVolumeLoop_abortsCleanly env .output b.mChannelsPerFrame 0)
                        have he : initializeMixer env m a b =
                            { status := (setVolumeLoop env .output 0 b.mChannelsPerFrame).1,
                              mixer := { m with mixerInputChannels := a.mChannelsPerFrame, mixerOutputChannels := b.mChannelsPerFrame },
                              calls := ([AudioCall.findNext, AudioCall.instanceNew,
                                AudioCall.setProperty .busCount .input 0,
                                AudioCall.setProperty .busCount .output 0,
                                AudioCall.setProperty .streamFormat .input 0,
                                AudioCall.setProperty .streamFormat .output 0,
                                AudioCall.setProperty .shouldAllocateBuffer .input 0,
                                AudioCall.setProperty .setRenderCallback .global 0,
                                AudioCall.audioUnitInit,
                                AudioCall.setParameter .global 0xFFFFFFFF 1] ++
                                (setVolumeLoop env .input 0 a.mChannelsPerFrame).2) ++
                                (setVolumeLoop env .output 0 b.mChannelsPerFrame).2 } := by
                          simp [initializeMixer, configureMixer, configureStreamFormats,
                            g0, g1, g2, g3, g4, g5, g6, g7, g8, g9, gL]
                        rw [he]
                        exact ⟨hC, fun _ => rfl⟩
                      · have hB := abortsCleanly_stop env
                          (plannedVolumeCalls .output 0 b.mChannelsPerFrame) hA gL
                        have he : initializeMixer env m a b =
                            { status := (setVolumeLoop env .input 0 a.mChannelsPerFrame).1,
                              mixer := { m with mixerInputChannels := a.mChannelsPerFrame, mixerOutputChannels := b.mChannelsPerFrame },
                              calls := [AudioCall.findNext, AudioCall.instanceNew,
                                AudioCall.setProperty .busCount .input 0,
                                AudioCall.setProperty .busCount .output 0,
                                AudioCall.setProperty .streamFormat .input 0,
                                AudioCall.setProperty .streamFormat .output 0,
                                AudioCall.setProperty .shouldAllocateBuffer .input 0,
                                AudioCall.setProperty .setRenderCallback .global 0,
                                AudioCall.audioUnitInit,
                                AudioCall.setParameter .global 0xFFFFFFFF 1] ++
                                (setVolumeLoop env .input 0 a.mChannelsPerFrame).2 } := by
                          simp [initializeMixer, configureMixer, configureStreamFormats,
                            g0, g1, g2, g3, g4, g5, g6, g7, g8, g9, gL]
                        rw [he]
                        exact ⟨hB, fun h => absurd h gL⟩
                    · have he : initializeMixer env m a b =
                          { status := env.setParameterStatus .global 0xFFFFFFFF,
                            mixer := { m with mixerInputChannels := a.mChannelsPerFrame, mixerOutputChannels := b.mChannelsPerFrame },
                            calls := [AudioCall.findNext, AudioCall.instanceNew,
                              AudioCall.setProperty .busCount .input 0,
                              AudioCall.setProperty .busCount .output 0,
                              AudioCall.setProperty .streamFormat .input 0,
                              AudioCall.setProperty .streamFormat .output 0,
                              AudioCall.setProperty .shouldAllocateBuffer .input 0,
                              AudioCall.setProperty .setRenderCallback .global 0,
                              AudioCall.audioUnitInit,
                              AudioCall.setParameter .global 0xFFFFFFFF 1] } := by
                        simp [initializeMixer, configureMixer, configureStreamFormats,
                          g0, g1, g2, g3, g4, g5, g6, g7, g8, g9]
                      rw [he]
                      refine ⟨?_, fun h => absurd h g9⟩
                      exact abortsCleanly_of_fail_last env [AudioCall.findNext,
                        AudioCall.instanceNew,
                        AudioCall.setProperty .busCount .input 0,
                        AudioCall.setProperty .busCount .output 0,
                        AudioCall.setProperty .streamFormat .input 0,
                        AudioCall.setProperty .streamFormat .output 0,
                        AudioCall.setProperty .shouldAllocateBuffer .input 0,
                        AudioCall.setProperty .setRenderCallback .global 0,
                        AudioCall.audioUnitInit]
                        (AudioCall.setParameter .global 0xFFFFFFFF 1) _ _ rfl g9
                        (by simp [callStatus, g0, g1, g2, g3, g4, g5, g6, g7, g8])
                  · have he : initializeMixer env m a b =
                        { status := env.audioUnitInitializeStatus,
                          mixer := { m with mixerInputChannels := a.mChannelsPerFrame, mixerOutputChannels := b.mChannelsPerFrame },
                          calls := [AudioCall.findNext, AudioCall.instanceNew,
                            AudioCall.setProperty .busCount .input 0,
                            AudioCall.setProperty .busCount .output 0,
                            AudioCall.setProperty .streamFormat .input 0,
                            AudioCall.setProperty .streamFormat .output 0,
                            AudioCall.setProperty .shouldAllocateBuffer .input 0,
                            AudioCall.setProperty .setRenderCallback .global 0,
                            AudioCall.audioUnitInit] } := by
                      simp [initializeMixer, configureMixer, configureStreamFormats,
                        g0, g1, g2, g3, g4, g5, g6, g7, g8]
                    rw [he]
                    refine ⟨?_, fun h => absurd h g8⟩
                    exact abortsCleanly_of_fail_last env [AudioCall.findNext,
                      AudioCall.instanceNew,
                      AudioCall.setProperty .busCount .input 0,
                      AudioCall.setProperty .busCount .output 0,
                      AudioCall.setProperty .streamFormat .input 0,
                      AudioCall.setProperty .streamFormat .output 0,
                      AudioCall.setProperty .shouldAllocateBuffer .input 0,
                      AudioCall.setProperty .setRenderCallback .global 0]
                      AudioCall.audioUnitInit _ _ rfl g8
                      (by simp [callStatus, g0, g1, g2, g3, g4, g5, g6, g7])
                · have he : initializeMixer env m a b =
                      { status := env.setPropertyStatus .setRenderCallback .global 0,
                        mixer := { m with mixerInputChannels := a.mChannelsPerFrame, mixerOutputChannels := b.mChannelsPerFrame },
                        calls := [AudioCall.findNext, AudioCall.instanceNew,
                          AudioCall.setProperty .busCount .input 0,
                          AudioCall.setProperty .busCount .output 0,
                          AudioCall.setProperty .streamFormat .input 0,
                          AudioCall.setProperty .streamFormat .output 0,
                          AudioCall.setProperty .shouldAllocateBuffer .input 0,
                          AudioCall.setProperty .setRenderCallback .global 0] } := by
                    simp [initializeMixer, configureMixer, configureStreamFormats,
                      g0, g1, g2, g3, g4, g5, g6, g7]
                  rw [he]
                  refine ⟨?_, fun h => absurd h g7⟩
                  exact abortsCleanly_of_fail_last env [AudioCall.findNext,
                    AudioCall.instanceNew,
                    AudioCall.setProperty .busCount .input 0,
                    AudioCall.setProperty .busCount .output 0,
                    AudioCall.setProperty .streamFormat .input 0,
                    AudioCall.setProperty .streamFormat .output 0,
                    AudioCall.setProperty .shouldAllocateBuffer .input 0]
                    (AudioCall.setProperty .setRenderCallback .global 0) _ _ rfl g7
                    (by simp [callStatus, g0, g1, g2, g3, g4, g5, g6])
              · have he : initializeMixer env m a b =
                    { status := env.setPropertyStatus .shouldAllocateBuffer .input 0,
                      mixer := { m with mixerInputChannels := a.mChannelsPerFrame, mixerOutputChannels := b.mChannelsPerFrame },
                      calls := [AudioCall.findNext, AudioCall.instanceNew,
                        AudioCall.setProperty .busCount .input 0,
                        AudioCall.setProperty .busCount .output 0,
                        AudioCall.setProperty .streamFormat .input 0,
                        AudioCall.setProperty .streamFormat .output 0,
                        AudioCall.setProperty .shouldAllocateBuffer .input 0] } := by
                  simp [initializeMixer, configureMixer, configureStreamFormats,
                    g0, g1, g2, g3, g4, g5, g6]
                rw [he]
                refine ⟨?_, fun h => absurd h g6⟩
                exact abortsCleanly_of_fail_last env [AudioCall.findNext,
                  AudioCall.instanceNew,
                  AudioCall.setProperty .busCount .input 0,
                  AudioCall.setProperty .busCount .output 0,
                  AudioCall.setProperty .streamFormat .input 0,
                  AudioCall.setProperty .streamFormat .output 0]
                  (AudioCall.setProperty .shouldAllocateBuffer .input 0) _ _ rfl g6
                  (by simp [callStatus, g0, g1, g2, g3, g4, g5])
            · have he : initializeMixer env m a b =
                  { status := env.setPropertyStatus .streamFormat .output 0,
                    mixer := { m with mixerInputChannels := a.mChannelsPerFrame },
                    calls := [AudioCall.findNext, AudioCall.instanceNew,
                      AudioCall.setProperty .busCount .input 0,
                      AudioCall.setProperty .busCount .output 0,
                      AudioCall.setProperty .streamFormat .input 0,
                      AudioCall.setProperty .streamFormat .output 0] } := by
                simp [initializeMixer, configureMixer, configureStreamFormats,
                  g0, g1, g2, g3, g4, g5]
              rw [he]
              refine ⟨?_, fun h => absurd h g5⟩
              exact abortsCleanly_of_fail_last env [AudioCall.findNext,
                AudioCall.instanceNew,
                AudioCall.setProperty .busCount .input 0,
                AudioCall.setProperty .busCount .output 0,
                AudioCall.setProperty .streamFormat .input 0]
                (AudioCall.setProperty .streamFormat .output 0) _ _ rfl g5
                (by simp [callStatus, g0, g1, g2, g3, g4])
          · have he : initializeMixer env m a b =
                { status := env.setPropertyStatus .streamFormat .input 0,
                  mixer := m,
                  calls := [AudioCall.findNext, AudioCall.instanceNew,
                    AudioCall.setProperty .busCount .input 0,
                    AudioCall.setProperty .busCount .output 0,
                    AudioCall.setProperty .streamFormat .input 0] } := by
              simp [initializeMixer, configureMixer, configureStreamFormats,
                g0, g1, g2, g3, g4]
            rw [he]
            refine ⟨?_, fun h => absurd h g4⟩
            exact abortsCleanly_of_fail_last env [AudioCall.findNext,
              AudioCall.instanceNew,
              AudioCall.setProperty .busCount .input 0,
              AudioCall.setProperty .busCount .output 0]
              (AudioCall.setProperty .streamFormat .input 0) _ _ rfl g4
              (by simp [callStatus, g0, g1, g2, g3])
        · have he : initializeMixer env m a b =
              { status := env.setPropertyStatus .busCount .output 0,
                mixer := m,
                calls := [AudioCall.findNext, AudioCall.instanceNew,
                  AudioCall.setProperty .busCount .input 0,
                  AudioCall.setProperty .busCount .output 0] } := by
            simp [initializeMixer, configureMixer, g0, g1, g2, g3]
          rw [he]
          refine ⟨?_, fun h => absurd h g3⟩
          exact abortsCleanly_of_fail_last env [AudioCall.findNext,
            AudioCall.instanceNew,
            AudioCall.setProperty .busCount .input 0]
            (AudioCall.setProperty .busCount .output 0) _ _ rfl g3
            (by simp [callStatus, g0, g1, g2])
      · have he : initializeMixer env m a b =
            { status := env.setPropertyStatus .busCount .input 0,
              mixer := m,
              calls := [AudioCall.findNext, AudioCall.instanceNew,
                AudioCall.setProperty .busCount .input 0] } := by
          simp [initializeMixer, configureMixer, g0, g1, g2]
        rw [he]
        refine ⟨?_, fun h => absurd h g2⟩
        exact abortsCleanly_of_fail_last env [AudioCall.findNext, AudioCall.instanceNew]
          (AudioCall.setProperty .busCount .input 0) _ _ rfl g2
          (by simp [callStatus, g0, g1])
    · have he : initializeMixer env m a b =
          { status := env.instanceNewStatus, mixer := m,
            calls := [AudioCall.findNext, AudioCall.instanceNew] } := by
        simp [initializeMixer, g0, g1]
      rw [he]
      refine ⟨?_, fun h => absurd h g1⟩
      exact abortsCleanly_of_fail_last env [AudioCall.findNext] AudioCall.instanceNew _ _
        rfl g1 (by simp [callStatus, g0])
  · have he : initializeMixer env m a b =
        { status := kAudioUnitErr_ExtensionNotFound, mixer := m,
          calls := [AudioCall.findNext] } := by
      simp [initializeMixer, g0]
    rw [he]
    have hne : kAudioUnitErr_ExtensionNotFound ≠ noErr := by decide
    refine ⟨?_, fun h => absurd h hne⟩
    exact abortsCleanly_of_fail_last env [] AudioCall.findNext _ kAudioUnitErr_ExtensionNotFound
      (by simp [callStatus, g0]) hne (by simp)

/-- A concrete 2-channel stream format. -/
def asbdStereo : AudioStreamBasicDescription :=
  { mSampleRate := 48000, mFormatID := 1, mChannelsPerFrame := 2, mBitsPerChannel := 32 }

/-- A concrete 4-channel stream format. -/
def asbdQuad : AudioStreamBasicDescription :=
  { mSampleRate := 48000, mFormatID := 1, mChannelsPerFrame := 4, mBitsPerChannel := 32 }

/-- Claim C6: `initialize` performs the configuration steps in order and
aborts at the first failing step, returning that step's status unchanged
and attempting none of the later steps: the issued calls are an initial
segment of the full planned sequence, a success means the whole sequence
ran, a failure status is the oracle's status for the last issued call with
every earlier call succeeding, and in particular a capability discovery
failure returns the discovery-error status having issued nothing but the
discovery request. -/
theorem initializeMixer_aborts_at_first_failure (env : AudioEnv) (m : SystemAudioMixer)
    (a b : AudioStreamBasicDescription) :
    (env.componentFound = false →
      (initializeMixer env m a b).status = kAudioUnitErr_ExtensionNotFound ∧
      (initializeMixer env m a b).calls = [AudioCall.findNext]) ∧
    (initializeMixer env m a b).calls =
      (plannedInitCalls a b).take (initializeMixer env m a b).calls.length ∧
    ((initializeMixer env m a b).status = noErr →
      (initializeMixer env m a b).calls = plannedInitCalls a b) ∧
    ((initializeMixer env m a b).status ≠ noErr →
      ∃ c, (initializeMixer env m a b).calls.getLast? = some c ∧
        callStatus env c = (initializeMixer env m a b).status ∧
        ∀ c2 ∈ (initializeMixer env m a b).calls.dropLast, callStatus env c2 = noErr) := by
  obtain ⟨⟨t, s, f⟩, _⟩ := initializeMixer_characterized env m a b
  refine ⟨fun hnf => ?_, t, fun h => (s h).1, f⟩
  constructor <;> simp [initializeMixer, hnf]

/-- Witness for C6: on the oracle with no component available, discovery
fails and exactly one call was made. -/
theorem initializeMixer_aborts_at_first_failure_witness :
    errEnv.componentFound = false ∧
    (initializeMixer errEnv mkSystemAudioMixer asbdStereo asbdQuad).status =
      kAudioUnitErr_ExtensionNotFound ∧
    (initializeMixer errEnv mkSystemAudioMixer asbdStereo asbdQuad).calls =
      [AudioCall.findNext] := by
  have h := (initializeMixer_aborts_at_first_failure errEnv mkSystemAudioMixer
    asbdStereo asbdQuad).1 rfl
  exact ⟨rfl, h.1, h.2⟩

/-- Claim C7: after a successful `initialize` the recorded channel counts
are those of the two formats, and the issued calls include a global
volume set to `1.0` plus one per-channel volume set to `1.0` for every
recorded input channel and every recorded output channel. -/
theorem initializeMixer_sets_unity_gains (env : AudioEnv) (m : SystemAudioMixer)
    (a b : AudioStreamBasicDescription)
    (hs : (initializeMixer env m a b).status = noErr) :
    (initializeMixer env m a b).mixer.mixerInputChannels = a.mChannelsPerFrame ∧
    (initializeMixer env m a b).mixer.mixerOutputChannels = b.mChannelsPerFrame ∧
    AudioCall.setParameter .global 0xFFFFFFFF 1 ∈ (initializeMixer env m a b).calls ∧
    (∀ i < a.mChannelsPerFrame,
      AudioCall.setParameter .input i 1 ∈ (initializeMixer env m a b).calls) ∧
    (∀ i < b.mChannelsPerFrame,
      AudioCall.setParameter .output i 1 ∈ (initializeMixer env m a b).calls) := by
  obtain ⟨⟨t, s, f⟩, hmix⟩ := initializeMixer_characterized env m a b
  obtain ⟨hcalls, _⟩ := s hs
  have hcalls2 : (initializeMixer env m a b).calls = plannedInitCalls a b := hcalls
  rw [hmix hs, hcalls2]
  refine ⟨rfl, rfl, by simp [plannedInitCalls], ?_, ?_⟩
  · intro i hi
    have hmem : AudioCall.setParameter .input i 1 ∈
        plannedVolumeCalls .input 0 a.mChannelsPerFrame := by
      refine List.mem_map.mpr ⟨i, ?_, rfl⟩
      rw [List.mem_range']
      exact ⟨i, hi, by omega⟩
    exact List.mem_append.mpr (Or.inl (List.mem_append.mpr (Or.inr hmem)))
  · intro i hi
    have hmem : AudioCall.setParameter .output i 1 ∈
        plannedVolumeCalls .output 0 b.mChannelsPerFrame := by
      refine List.mem_map.mpr ⟨i, ?_, rfl⟩
      rw [List.mem_range']
      exact ⟨i, hi, by omega⟩
    exact List.mem_append.mpr (Or.inr hmem)

/-- Witness for C7: a fully successful initialize with a 2-channel input
format and a 4-channel output format. -/
theorem initializeMixer_sets_unity_gains_witness :
    (initializeMixer testEnv mkSystemAudioMixer asbdStereo asbdQuad).status = noErr ∧
    (initializeMixer testEnv mkSystemAudioMixer asbdStereo asbdQuad).mixer.mixerInputChannels
      = 2 ∧
    (initializeMixer testEnv mkSystemAudioMixer asbdStereo asbdQuad).mixer.mixerOutputChannels
      = 4 ∧
    AudioCall.setParameter .global 0xFFFFFFFF 1 ∈
      (initializeMixer testEnv mkSystemAudioMixer asbdStereo asbdQuad).calls ∧
    (∀ i < 2, AudioCall.setParameter .input i 1 ∈
      (initializeMixer testEnv mkSystemAudioMixer asbdStereo asbdQuad).calls) ∧
    (∀ i < 4, AudioCall.setParameter .output i 1 ∈
      (initializeMixer testEnv mkSystemAudioMixer asbdStereo asbdQuad).calls) := by
  have h := initializeMixer_sets_unity_gains testEnv mkSystemAudioMixer asbdStereo asbdQuad rfl
  exact ⟨rfl, h.1, h.2.1, h.2.2.1, h.2.2.2.1, h.2.2.2.2⟩

/-! ## Crossover-element arithmetic -/

lemma mulShift_mod (a : Nat) : (a * 65536) % 4294967296 = 65536 * (a % 65536) := by
  rw [show a * 65536 = 65536 * a by ring,
    show (4294967296 : Nat) = 65536 * 65536 by norm_num, Nat.mul_mod_mul_left]

lemma elt_step (u kn : Nat) (hu : u % 2 = 0) (hkn : kn < 65536) :
    (u * 65536) % 4294967296 ||| (kn + 65536) =
      ((u + 1) * 65536) % 4294967296 ||| kn := by
  obtain ⟨v, rfl⟩ : ∃ v, u = 2 * v := ⟨u / 2, by omega⟩
  have hA : (2 * v * 65536) % 4294967296 = 131072 * (v % 32768) := by
    rw [show 2 * v * 65536 = 131072 * v by ring,
      show (4294967296 : Nat) = 131072 * 32768 by norm_num, Nat.mul_mod_mul_left]
  have hB : ((2 * v + 1) * 65536) % 4294967296 = 65536 * (2 * (v % 32768) + 1) := by
    rw [show (2 * v + 1) * 65536 = 65536 * (2 * v + 1) by ring,
      show (4294967296 : Nat) = 65536 * 65536 by norm_num, Nat.mul_mod_mul_left]
    congr 1
    omega
  rw [hA, hB]
  have h131 : (131072 : Nat) = 2 ^ 17 := by norm_num
  have h65 : (65536 : Nat) = 2 ^ 16 := by norm_num
  rw [h131, h65]
  rw [← Nat.mul_add_lt_is_or (b := kn + 2 ^ 16) (i := 17) (by norm_num; omega) (v % 32768)]
  rw [← Nat.mul_add_lt_is_or (b := kn) (i := 16) (by norm_num; omega) (2 * (v % 32768) + 1)]
  ring

lemma crossoverElement_step (i k : Int) (hi : i % 2 = 0) (hk0 : 0 ≤ k) (hk : k < 65536) :
    crossoverElement i (k + 65536) = crossoverElement (i + 1) k := by
  have hpow : (2 : Int) ^ 32 = 4294967296 := by norm_num
  have hu2 : toUInt32bits i % 2 = 0 := by
    simp only [toUInt32bits, hpow]
    omega
  have h2 : toUInt32bits (i + 1) = toUInt32bits i + 1 := by
    simp only [toUInt32bits, hpow]
    omega
  have h1 : toUInt32bits (k + 65536) = toUInt32bits k + 65536 := by
    simp only [toUInt32bits, hpow]
    omega
  have h0 : toUInt32bits k < 65536 := by
    simp only [toUInt32bits, hpow]
    omega
  simp only [crossoverElement, h1, h2]
  have hN : ((2 : Nat) ^ 16) = 65536 := by norm_num
  have hN32 : ((2 : Nat) ^ 32) = 4294967296 := by norm_num
  rw [hN, hN32]
  exact elt_step (toUInt32bits i) (toUInt32bits k) hu2 h0

lemma crossoverElement_fold_input (i j : Int) :
    crossoverElement i j = crossoverElement (i % 65536) j := by
  have hN : ((2 : Nat) ^ 16) = 65536 := by norm_num
  have hN32 : ((2 : Nat) ^ 32) = 4294967296 := by norm_num
  have hpow : (2 : Int) ^ 32 = 4294967296 := by norm_num
  have hmod : toUInt32bits i % 65536 = toUInt32bits (i % 65536) % 65536 := by
    simp only [toUInt32bits, hpow]
    omega
  simp only [crossoverElement, hN, hN32, mulShift_mod, hmod]

lemma crossoverElement_fold_output (i j : Int) :
    crossoverElement i j = crossoverElement i (j % 4294967296) := by
  have hpow : (2 : Int) ^ 32 = 4294967296 := by norm_num
  have hj : toUInt32bits (j % 4294967296) = toUInt32bits j := by
    simp only [toUInt32bits, hpow]
    omega
  simp only [crossoverElement, hj]

/-- Counterexample to C9 as stated: with input index `i = 1` (odd) and
`k = 0`, `j = k + 65536`, the two calls issue different parameter-set
requests — `(1 << 16) | 65536 = 65536` while `(2 << 16) | 0 = 131072`:
the carry into the already-set bit 16 is absorbed by the bitwise or
instead of incrementing the input index. -/
theorem setCrossoverVolume_alias_counterexample :
    setCrossoverVolume testEnv mkSystemAudioMixer 1 (0 + 65536) 1 ≠
      setCrossoverVolume testEnv mkSystemAudioMixer (1 + 1) 0 1 := by
  decide

/-- Claim C9 (amended): `setCrossoverVolume(i, j, g)` addresses the
crosspoint by the single element identifier `(i << 16) | j` computed on
32-bit two's-complement patterns, with no range checking by the engine,
so distinct index pairs can alias the same element: for every even `i`
and every `k` with `0 ≤ k < 65536` and `j = k + 65536`, the call
`setCrossoverVolume(i, j, g)` issues the same parameter-set request as
`setCrossoverVolume(i + 1, k, g)`; and indices are folded into the
identifier space — the input index modulo `2 ^ 16` and the output index
modulo `2 ^ 32` — which in particular folds negative indices. -/
theorem setCrossoverVolume_element_identifier (env : AudioEnv) (m : SystemAudioMixer)
    (i k : Int) (g : Rat) (hi : i % 2 = 0) (hk0 : 0 ≤ k) (hk : k < 65536) :
    setCrossoverVolume env m i (k + 65536) g = setCrossoverVolume env m (i + 1) k g ∧
    (∀ i2 j2 : Int, crossoverElement i2 j2 = crossoverElement (i2 % 65536) j2) ∧
    (∀ i2 j2 : Int, crossoverElement i2 j2 = crossoverElement i2 (j2 % 4294967296)) := by
  refine ⟨?_, crossoverElement_fold_input, crossoverElement_fold_output⟩
  simp [setCrossoverVolume, crossoverElement_step i k hi hk0 hk]

/-- Witness for the amended C9 at `i = 2`, `k = 5`. -/
theorem setCrossoverVolume_element_identifier_witness :
    (2 : Int) % 2 = 0 ∧ (0 : Int) ≤ 5 ∧ (5 : Int) < 65536 ∧
    setCrossoverVolume testEnv mkSystemAudioMixer 2 (5 + 65536) 1 =
      setCrossoverVolume testEnv mkSystemAudioMixer (2 + 1) 5 1 := by
  refine ⟨by decide, by decide, by decide, ?_⟩
  exact (setCrossoverVolume_element_identifier testEnv mkSystemAudioMixer 2 5 1
    (by decide) (by decide) (by decide)).1
